import Mathlib

/-!
Shallow embedding of the metamorphio recurrence-schedule validator
(`src/trackers/schedule.py`) and the task lifecycle
(`src/trackers/task/task.py`).

Conventions used throughout:

* A Python aware `datetime` (all of them live in the single fixed zone
  `TIME_ZONE`) is modelled by `DateTime`: an absolute calendar-day index
  plus an hour/minute/second/microsecond time of day.  Two datetimes are
  compared through the linearisation `toUsec` (microseconds since day 0);
  a `timedelta` is a microsecond count (`Int`).
* A pydantic `ValidationError` / `ValueError` raised inside a validator is
  modelled by `Except VErr`; the constructors of `VErr` are the failure
  taxonomy of the spec (one constructor per distinct raise site family).
* pydantic performs field validation first — the `BeforeValidator`
  `ensure_time_format` attached to `at_time`, and the `PositiveInt` bound
  on `duration_minutes` — and only if every field is accepted does it run
  the three `model_validator(mode="after")` hooks, in definition order:
  `validate_date_order`, then `validate_occurrence`, then
  `validate_duration`.  `validate` chains the stages fail-fast in exactly
  that order, mirroring `Schedule(...)` construction with `now` (the
  `datetime.now(TIME_ZONE)` default) passed explicitly.
-/

namespace Metamorphio

/-- `ReoccurrenceType` enum of `schedule.py` (`daily` is the default). -/
inductive ReoccurrenceType
  | daily
  | weekly
  | monthly
  | quarterly
  | yearly
deriving DecidableEq

/-- The validation/lifecycle failure taxonomy: one constructor per raise
site of the source (`schedule.py` validators and `Task._calculate_runtime`). -/
inductive VErr
  | MalformedTimeOfDay
  | DateOrderViolation
  | OccurrenceBeforeStart
  | OccurrenceInPast
  | OccurrenceAfterEnd
  | DurationOutOfRange
  | DurationCrossesMidnight
  | MissingTimestamps
deriving DecidableEq

/-- Microseconds in one calendar day. -/
def usecPerDay : Int := 86400000000

/-- A civil datetime in the fixed zone: absolute day index plus time of
day.  Mirrors the `year/month/day/hour/minute/second/microsecond` fields
of a Python `datetime`, with the calendar date flattened to one absolute
day number (the claims never need month boundaries: every date-level
comparison in the source is a plain datetime comparison, and the only
`.day` access compares datetimes at most 1440 minutes apart). -/
structure DateTime where
  day : Int
  hour : Nat
  minute : Nat
  second : Nat
  usec : Nat
deriving DecidableEq

/-- Microseconds elapsed since this datetime's own midnight. -/
def DateTime.todUsec (t : DateTime) : Nat :=
  ((t.hour * 60 + t.minute) * 60 + t.second) * 1000000 + t.usec

/-- Linearisation used for datetime comparison and subtraction.  A Python
aware-datetime comparison in the single fixed zone orders instants, which
on this civil model is the lexicographic order on (day, time of day). -/
def DateTime.toUsec (t : DateTime) : Int :=
  t.day * usecPerDay + t.todUsec

/-- `dt.replace(hour=h, minute=m, second=0, microsecond=0)` of the source
(`Schedule.validate_occurrence`): keep the calendar date, substitute the
time of day, zeroing seconds and sub-second precision. -/
def DateTime.replaceHM (t : DateTime) (h m : Nat) : DateTime :=
  { t with hour := h, minute := m, second := 0, usec := 0 }

/-- `endured.day != self.occurrence_date.day` of `validate_duration`:
`occurrence_date + timedelta(minutes=d)` lands outside the occurrence's
own calendar day (the half-open interval of instants
`[day * usecPerDay, (day + 1) * usecPerDay)`).  The source compares the
day-of-month components of the two datetimes; for every duration that
reaches this check (at most 1440 minutes) the day-of-month changes
exactly when the instant leaves the occurrence's calendar day, so the two
formulations agree on all reachable inputs. -/
def crossesMidnight (t : DateTime) (d : Int) : Bool :=
  decide (t.toUsec + d * 60000000 < t.day * usecPerDay ∨
    (t.day + 1) * usecPerDay ≤ t.toUsec + d * 60000000)

/-- One character of surrounding whitespace in the sense of Python's
`str.strip()` with no argument: space and the ASCII control whitespace
`\t`, `\n`, `\v`, `\f`, `\r` (code points 9–13 and 32; the claims never
exercise the additional Unicode space characters Python also strips). -/
def isStripSpace (c : Char) : Bool :=
  c.toNat == 32 || (decide (9 ≤ c.toNat) && decide (c.toNat ≤ 13))

/-- `time_str.strip()`: drop leading and trailing whitespace. -/
def pyStrip (s : String) : String :=
  ⟨((s.toList.dropWhile isStripSpace).reverse.dropWhile isStripSpace).reverse⟩

/-- The anchored regex `^([0-1][0-9]|2[0-3]):([0-5][0-9])$` of
`ensure_time_format`, as a predicate on the code points of the string
(48–57 are the digits `0`–`9`, 58 is the colon): exactly five characters,
hour `00`–`23`, minute `00`–`59`. -/
def isTimePattern (s : String) : Bool :=
  match s.toList with
  | [c1, c2, c3, c4, c5] =>
    ((c1.toNat == 48 || c1.toNat == 49) && decide (48 ≤ c2.toNat) && decide (c2.toNat ≤ 57)
      || c1.toNat == 50 && decide (48 ≤ c2.toNat) && decide (c2.toNat ≤ 51)) &&
    c3.toNat == 58 &&
    (decide (48 ≤ c4.toNat) && decide (c4.toNat ≤ 53)) &&
    (decide (48 ≤ c5.toNat) && decide (c5.toNat ≤ 57))
  | _ => false

/-- `map(int, at_time.split(":"))` of `validate_occurrence`, specialised
to the strings that survived the pattern check: the two two-digit decimal
groups (hour, minute). -/
def parseHM (s : String) : Nat × Nat :=
  match s.toList with
  | [c1, c2, _, c4, c5] =>
    ((c1.toNat - 48) * 10 + (c2.toNat - 48), (c4.toNat - 48) * 10 + (c5.toNat - 48))
  | _ => (0, 0)

/-- `ensure_time_format` of `schedule.py`: trim surrounding whitespace,
match the `HH:MM` pattern, and store the trimmed string; a failed match
raises (`MalformedTimeOfDay`). -/
def ensure_time_format (s : String) : Except VErr String :=
  if isTimePattern (pyStrip s) then Except.ok (pyStrip s)
  else Except.error VErr.MalformedTimeOfDay

/-- Equality of validation outcomes is decidable (needed so the closed
instances below evaluate by `decide`). -/
def exceptDecEq {ε α : Type} [DecidableEq ε] [DecidableEq α] :
    DecidableEq (Except ε α) := fun a b =>
  match a, b with
  | Except.ok x, Except.ok y =>
    if h : x = y then isTrue (by rw [h])
    else isFalse (by intro hc; cases hc; exact h rfl)
  | Except.ok _, Except.error _ => isFalse (by intro hc; cases hc)
  | Except.error _, Except.ok _ => isFalse (by intro hc; cases hc)
  | Except.error x, Except.error y =>
    if h : x = y then isTrue (by rw [h])
    else isFalse (by intro hc; cases hc; exact h rfl)

instance {ε α : Type} [DecidableEq ε] [DecidableEq α] : DecidableEq (Except ε α) :=
  exceptDecEq

/-- The `Schedule` pydantic model of `schedule.py`.  `created` (a Unix
timestamp captured at construction) and `at_any_time` (defaulted `True`,
never consulted by any validator) are carried but inert.  `now` is the
`datetime.now(TIME_ZONE)` default captured once at validation entry. -/
structure Schedule where
  created : Int
  now : DateTime
  start_date : DateTime
  reoccurrence : ReoccurrenceType
  occurrence_date : DateTime
  end_date : Option DateTime
  at_any_time : Bool
  at_time : Option String
  duration_minutes : Option Int
deriving DecidableEq

/-- The occurrence-date rewrite of `validate_occurrence`: when a
(normalised) `at_time` is present, substitute its hour/minute into the
occurrence date, zeroing seconds and microseconds; otherwise leave the
occurrence date unchanged. -/
def applyAtTime (at_ : Option String) (occ : DateTime) : DateTime :=
  match at_ with
  | some t => occ.replaceHM (parseHM t).1 (parseHM t).2
  | none => occ

/-- The trailing `self.occurrence_date = occur_obj` assignment of
`validate_occurrence`, as a whole-model update. -/
def Schedule.insertAtTime (s : Schedule) : Schedule :=
  { s with occurrence_date := applyAtTime s.at_time s.occurrence_date }

/-- `Schedule.validate_date_order`: if an end date is present it must not
precede the start date. -/
def Schedule.validate_date_order (s : Schedule) : Except VErr Schedule :=
  match s.end_date with
  | some e =>
    if e.toUsec < s.start_date.toUsec then Except.error VErr.DateOrderViolation
    else Except.ok s
  | none => Except.ok s

/-- `Schedule.validate_occurrence`: the three ordering checks against the
un-rewritten occurrence date, then the `at_time` substitution. -/
def Schedule.validate_occurrence (s : Schedule) : Except VErr Schedule :=
  if s.occurrence_date.toUsec < s.start_date.toUsec then
    Except.error VErr.OccurrenceBeforeStart
  else if s.occurrence_date.toUsec < s.now.toUsec then
    Except.error VErr.OccurrenceInPast
  else
    match s.end_date with
    | some e =>
      if e.toUsec < s.occurrence_date.toUsec then Except.error VErr.OccurrenceAfterEnd
      else Except.ok s.insertAtTime
    | none => Except.ok s.insertAtTime

/-- `Schedule.validate_duration`: the `range(1, 1441)` membership check,
then the midnight-crossing check against the (already rewritten)
occurrence date. -/
def Schedule.validate_duration (s : Schedule) : Except VErr Schedule :=
  match s.duration_minutes with
  | some d =>
    if d < 1 ∨ 1440 < d then Except.error VErr.DurationOutOfRange
    else if crossesMidnight s.occurrence_date d then Except.error VErr.DurationCrossesMidnight
    else Except.ok s
  | none => Except.ok s

/-- The pydantic field-validation stage: the `BeforeValidator`
`ensure_time_format` on `at_time` (which stores the trimmed string) and
the `PositiveInt` lower bound on `duration_minutes`, both run before any
model validator, in field-declaration order.  A sub-unit duration is a
duration-range failure (the same failure family as the model validator's
range check). -/
def fieldStage (at_ : Option String) (d : Option Int) : Except VErr (Option String) :=
  match at_ with
  | some a =>
    match ensure_time_format a with
    | Except.error e => Except.error e
    | Except.ok t =>
      match d with
      | some k =>
        if k < 1 then Except.error VErr.DurationOutOfRange else Except.ok (some t)
      | none => Except.ok (some t)
  | none =>
    match d with
    | some k => if k < 1 then Except.error VErr.DurationOutOfRange else Except.ok none
    | none => Except.ok none

/-- `Schedule(...)` construction: field validation, then the three model
validators in definition order, fail-fast; on success the caller receives
the fully-built immutable model. -/
def validate (created : Int) (now start_date : DateTime) (reoccurrence : ReoccurrenceType)
    (occurrence_date : DateTime) (end_date : Option DateTime)
    (at_time : Option String) (duration_minutes : Option Int) : Except VErr Schedule :=
  match fieldStage at_time duration_minutes with
  | Except.error e => Except.error e
  | Except.ok at' =>
    match Schedule.validate_date_order
        ⟨created, now, start_date, reoccurrence, occurrence_date, end_date, true, at',
          duration_minutes⟩ with
    | Except.error e => Except.error e
    | Except.ok s1 =>
      match s1.validate_occurrence with
      | Except.error e => Except.error e
      | Except.ok s2 => s2.validate_duration

/-- Whether a validation attempt produced a model (no failure raised). -/
def isOk {α : Type} (e : Except VErr α) : Bool :=
  match e with
  | Except.ok _ => true
  | Except.error _ => false

/-- `TaskStatus` enum of `task.py`. -/
inductive TaskStatus
  | created
  | in_progress
  | completed
  | canceled
deriving DecidableEq

/-- The `Task` class of `task.py`.  The attached schedule is opaque to the
lifecycle (never re-validated); `runtime` is a `timedelta`, modelled in
microseconds. -/
structure Task where
  name : String
  description : String
  due_date : Option DateTime
  reoccurrence : Option Schedule
  status : TaskStatus
  start_time : Option DateTime
  completed_time : Option DateTime
  runtime : Option Int
  cancellation_reason : Option String
deriving DecidableEq

/-- `Task.__init__`: a fresh task is `created` with no timestamps, no
runtime and no cancellation reason. -/
def Task.init (name desc : String) (due : Option DateTime) (reo : Option Schedule) : Task :=
  { name := name, description := desc, due_date := due, reoccurrence := reo,
    status := TaskStatus.created, start_time := none, completed_time := none,
    runtime := none, cancellation_reason := none }

/-- `Task.start`: unconditionally record `now` as the start time and move
to `in_progress` (the source has no status guard). -/
def Task.start (t : Task) (now : DateTime) : Task :=
  { t with start_time := some now, status := TaskStatus.in_progress }

/-- `Task._calculate_runtime`: `completed_time - start_time` when both
timestamps are present (datetimes are always truthy in Python, so the
source's `if a and b` is exactly a presence test), otherwise the
`MissingTimestamps` failure. -/
def Task.calculate_runtime (t : Task) : Except VErr Int :=
  match t.start_time, t.completed_time with
  | some s, some c => Except.ok (c.toUsec - s.toUsec)
  | _, _ => Except.error VErr.MissingTimestamps

/-- The first two statements of `Task.complete`: set `completed_time =
now` and `status = completed`.  The source mutates `self` this way before
calling `_calculate_runtime`, so when that call raises, these two
mutations persist. -/
def Task.markCompleted (t : Task) (now : DateTime) : Task :=
  { t with completed_time := some now, status := TaskStatus.completed }

/-- `Task.complete`: perform the two mutations, then compute the runtime;
the runtime assignment happens only when `_calculate_runtime` returns
instead of raising.  The returned pair is (post-call task state, raised
failure if any). -/
def Task.complete (t : Task) (now : DateTime) : Task × Option VErr :=
  match Task.calculate_runtime (Task.markCompleted t now) with
  | Except.ok r => ({ Task.markCompleted t now with runtime := some r }, none)
  | Except.error e => (Task.markCompleted t now, some e)

/-- `Task.cancel`: unconditionally move to `canceled`; the source guards
the reason assignment with `if reason:`, Python truthiness, so a supplied
empty string is ignored exactly like an absent reason. -/
def Task.cancel (t : Task) (reason : Option String) : Task :=
  match reason with
  | some r =>
    if r.isEmpty then { t with status := TaskStatus.canceled }
    else { t with status := TaskStatus.canceled, cancellation_reason := some r }
  | none => { t with status := TaskStatus.canceled }

/-- Concrete datetimes and strings used by the closed instances below. -/
def dt0 : DateTime := ⟨0, 0, 0, 0, 0⟩

def dtDay1 : DateTime := ⟨1, 0, 0, 0, 0⟩

def dtNow : DateTime := ⟨0, 10, 0, 0, 0⟩

def dtOcc : DateTime := ⟨0, 12, 0, 0, 0⟩

def dt5 : DateTime := ⟨0, 0, 5, 0, 0⟩

def time0900 : String := "09:00"

def time0930 : String := "09:30"

def time2400 : String := "24:00"

def time930 : String := "9:30"

def time1260 : String := "12:60"

def timeJunk : String := "junk"

def emptyReason : String := ""

def taskName : String := "chore"

def task0 : Task := Task.init taskName taskName none none

def taskDone : Task := { task0 with status := TaskStatus.completed }

def schedC2 : Schedule :=
  ⟨0, dtNow, dt0, ReoccurrenceType.daily, ⟨0, 9, 0, 0, 0⟩, none, true, some time0900, none⟩



/-- Adding exactly 1440 minutes to any occurrence lands on the next calendar
day, so the crossing check of `validate_duration` holds for every occurrence
date, including one at exactly midnight. -/
theorem crossesMidnight_1440 (t : DateTime) : crossesMidnight t 1440 = true := by
  unfold crossesMidnight DateTime.toUsec usecPerDay
  simp only [decide_eq_true_eq]
  omega

/-- A successful `ensure_time_format` returns the stripped input, and that
string matches the time pattern. -/
theorem ensure_ok_pattern {a t : String} (h : ensure_time_format a = Except.ok t) :
    isTimePattern t = true ∧ t = pyStrip a := by
  unfold ensure_time_format at h
  split at h
  · rename_i hp
    cases h
    exact ⟨hp, rfl⟩
  · cases h

/-- When the stripped input matches the pattern, `ensure_time_format`
accepts and returns it. -/
theorem ensure_ok_of_pattern {a : String} (h : isTimePattern (pyStrip a) = true) :
    ensure_time_format a = Except.ok (pyStrip a) := by
  unfold ensure_time_format
  simp [h]

/-- When the stripped input fails the pattern, `ensure_time_format` raises
`MalformedTimeOfDay`. -/
theorem ensure_err_of_not {a : String} (h : isTimePattern (pyStrip a) = false) :
    ensure_time_format a = Except.error VErr.MalformedTimeOfDay := by
  unfold ensure_time_format
  simp [h]

/-- Inversion of a successful field stage: any normalised time string
matches the pattern, and any present duration is positive. -/
theorem fieldStage_ok {at_ : Option String} {d : Option Int} {at' : Option String}
    (h : fieldStage at_ d = Except.ok at') :
    (∀ t, at' = some t → isTimePattern t = true) ∧ ∀ k, d = some k → 1 ≤ k := by
  unfold fieldStage at h
  split at h
  · rename_i a
    split at h
    · cases h
    · rename_i t hE
      split at h
      · rename_i k
        split at h
        · cases h
        · rename_i hk
          cases h
          refine ⟨?_, ?_⟩
          · intro t' ht'
            cases ht'
            exact (ensure_ok_pattern hE).1
          · intro k' hk'
            cases hk'
            omega
      · cases h
        refine ⟨?_, ?_⟩
        · intro t' ht'
          cases ht'
          exact (ensure_ok_pattern hE).1
        · intro k' hk'
          cases hk'
  · split at h
    · rename_i k
      split at h
      · cases h
      · rename_i hk
        cases h
        constructor
        · intro t' ht'
          cases ht'
        · intro k' hk'
          cases hk'
          omega
    · cases h
      constructor
      · intro t' ht'
        cases ht'
      · intro k' hk'
        cases hk'

/-- Unfolding equation of `fieldStage` (no time string, no duration). -/
theorem fieldStage_none_none : fieldStage none none = Except.ok none := rfl

/-- Unfolding equation of `fieldStage` (no time string, a duration). -/
theorem fieldStage_none_some (k : Int) :
    fieldStage none (some k) =
      (if k < 1 then Except.error VErr.DurationOutOfRange else Except.ok none) := rfl

/-- Unfolding equation of `fieldStage` (a time string, no duration). -/
theorem fieldStage_some_none (a : String) :
    fieldStage (some a) none =
      (match ensure_time_format a with
        | Except.error e => Except.error e
        | Except.ok t => Except.ok (some t)) := rfl

/-- Unfolding equation of `fieldStage` (a time string and a duration). -/
theorem fieldStage_some_some (a : String) (k : Int) :
    fieldStage (some a) (some k) =
      (match ensure_time_format a with
        | Except.error e => Except.error e
        | Except.ok t =>
          if k < 1 then Except.error VErr.DurationOutOfRange
          else Except.ok (some t)) := rfl

/-- `ensure_time_format` raises only `MalformedTimeOfDay`. -/
theorem ensure_err {a : String} {e : VErr} (h : ensure_time_format a = Except.error e) :
    e = VErr.MalformedTimeOfDay := by
  unfold ensure_time_format at h
  split at h
  · cases h
  · cases h
    rfl

/-- A field stage that accepts with no duration also accepts with any
positive duration, normalising the time string identically. -/
theorem fieldStage_some_of_none {at_ at' : Option String} {k : Int}
    (h : fieldStage at_ none = Except.ok at') (hk : 1 ≤ k) :
    fieldStage at_ (some k) = Except.ok at' := by
  cases at_ with
  | none =>
    rw [fieldStage_none_none] at h
    cases h
    rw [fieldStage_none_some, if_neg (by omega)]
  | some a =>
    rw [fieldStage_some_none] at h
    rw [fieldStage_some_some]
    cases hE : ensure_time_format a with
    | error e =>
      rw [hE] at h
      cases h
    | ok t =>
      rw [hE] at h
      cases h
      dsimp only
      rw [if_neg (by omega)]

/-- A field stage that accepts with no duration rejects a sub-unit duration
with `DurationOutOfRange` (the `PositiveInt` field bound). -/
theorem fieldStage_some_lt_one {at_ : Option String} {at' : Option String} {k : Int}
    (h : fieldStage at_ none = Except.ok at') (hk : k < 1) :
    fieldStage at_ (some k) = Except.error VErr.DurationOutOfRange := by
  cases at_ with
  | none =>
    rw [fieldStage_none_some, if_pos (by omega)]
  | some a =>
    rw [fieldStage_some_none] at h
    rw [fieldStage_some_some]
    cases hE : ensure_time_format a with
    | error e =>
      rw [hE] at h
      cases h
    | ok t =>
      rw [hE] at h
      cases h
      dsimp only
      rw [if_pos (by omega)]

/-- The field stage raises only `MalformedTimeOfDay` or
`DurationOutOfRange`. -/
theorem fieldStage_err {at_ : Option String} {d : Option Int} {e : VErr}
    (h : fieldStage at_ d = Except.error e) :
    e = VErr.MalformedTimeOfDay ∨ e = VErr.DurationOutOfRange := by
  unfold fieldStage at h
  split at h
  · rename_i a
    split at h
    · rename_i e' hE
      cases h
      exact Or.inl (ensure_err hE)
    · split at h
      · split at h
        · cases h
          exact Or.inr rfl
        · cases h
      · cases h
  · split at h
    · split at h
      · cases h
        exact Or.inr rfl
      · cases h
    · cases h

/-- With a well-formed time string, a failing field stage can only be the
duration bound. -/
theorem fieldStage_pattern_err {a : String} {d : Option Int} {e : VErr}
    (hp : isTimePattern (pyStrip a) = true) (h : fieldStage (some a) d = Except.error e) :
    e = VErr.DurationOutOfRange := by
  cases d with
  | none =>
    rw [fieldStage_some_none, ensure_ok_of_pattern hp] at h
    dsimp only at h
    cases h
  | some k =>
    rw [fieldStage_some_some, ensure_ok_of_pattern hp] at h
    dsimp only at h
    split at h
    · cases h
      rfl
    · cases h

/-- Construction of a successful field stage from a well-formed time string
and a positive duration. -/
theorem fieldStage_ok_of {at_ : Option String} {d : Option Int}
    (hat : ∀ a, at_ = some a → isTimePattern (pyStrip a) = true)
    (hd : ∀ k, d = some k → 1 ≤ k) :
    fieldStage at_ d = Except.ok (at_.map pyStrip) := by
  cases at_ with
  | none =>
    cases d with
    | none => rfl
    | some k => rw [fieldStage_none_some, if_neg (by have := hd k rfl; omega)]; rfl
  | some a =>
    cases d with
    | none =>
      rw [fieldStage_some_none, ensure_ok_of_pattern (hat a rfl)]
      rfl
    | some k =>
      rw [fieldStage_some_some, ensure_ok_of_pattern (hat a rfl)]
      dsimp only
      rw [if_neg (by have := hd k rfl; omega)]
      rfl

/-- `validate_date_order` raises only `DateOrderViolation`. -/
theorem date_order_err {s : Schedule} {e : VErr}
    (h : s.validate_date_order = Except.error e) : e = VErr.DateOrderViolation := by
  unfold Schedule.validate_date_order at h
  split at h
  · split at h
    · cases h
      rfl
    · cases h
  · cases h

/-- `validate_occurrence` raises only the three occurrence-ordering
failures. -/
theorem occurrence_err {s : Schedule} {e : VErr}
    (h : s.validate_occurrence = Except.error e) :
    e = VErr.OccurrenceBeforeStart ∨ e = VErr.OccurrenceInPast ∨
      e = VErr.OccurrenceAfterEnd := by
  unfold Schedule.validate_occurrence at h
  split at h
  · cases h
    exact Or.inl rfl
  · split at h
    · cases h
      exact Or.inr (Or.inl rfl)
    · split at h
      · split at h
        · cases h
          exact Or.inr (Or.inr rfl)
        · cases h
      · cases h

/-- `validate_duration` raises only the two duration failures. -/
theorem duration_err {s : Schedule} {e : VErr}
    (h : s.validate_duration = Except.error e) :
    e = VErr.DurationOutOfRange ∨ e = VErr.DurationCrossesMidnight := by
  unfold Schedule.validate_duration at h
  split at h
  · split at h
    · cases h
      exact Or.inl rfl
    · split at h
      · cases h
        exact Or.inr rfl
      · cases h
  · cases h

/-- Inversion of a successful `validate_date_order`: the model is returned
unchanged and any end date is not before the start date. -/
theorem date_order_ok {s s' : Schedule} (h : s.validate_date_order = Except.ok s') :
    s' = s ∧ ∀ e, s.end_date = some e → ¬ e.toUsec < s.start_date.toUsec := by
  unfold Schedule.validate_date_order at h
  split at h
  · rename_i e' heq
    split at h
    · cases h
    · rename_i hlt
      cases h
      refine ⟨rfl, ?_⟩
      intro e he
      rw [heq] at he
      cases he
      exact hlt
  · rename_i heq
    cases h
    refine ⟨rfl, ?_⟩
    intro e he
    rw [heq] at he
    cases he

/-- Inversion of a successful `validate_occurrence`: the returned model is
the input with the `at_time` rewrite applied, and the three ordering checks
held of the un-rewritten occurrence date. -/
theorem occurrence_ok {s s' : Schedule} (h : s.validate_occurrence = Except.ok s') :
    s' = s.insertAtTime ∧ ¬ s.occurrence_date.toUsec < s.start_date.toUsec ∧
      ¬ s.occurrence_date.toUsec < s.now.toUsec ∧
      ∀ e, s.end_date = some e → ¬ e.toUsec < s.occurrence_date.toUsec := by
  unfold Schedule.validate_occurrence at h
  split at h
  · cases h
  · rename_i h1
    split at h
    · cases h
    · rename_i h2
      split at h
      · rename_i e' heq
        split at h
        · cases h
        · rename_i h3
          cases h
          refine ⟨rfl, h1, h2, ?_⟩
          intro e he
          rw [heq] at he
          cases he
          exact h3
      · rename_i heq
        cases h
        refine ⟨rfl, h1, h2, ?_⟩
        intro e he
        rw [heq] at he
        cases he

/-- Inversion of a successful `validate_duration`: the model is returned
unchanged and any present duration is in range and does not cross
midnight. -/
theorem duration_ok {s s' : Schedule} (h : s.validate_duration = Except.ok s') :
    s' = s ∧ ∀ k, s.duration_minutes = some k →
      1 ≤ k ∧ k ≤ 1440 ∧ crossesMidnight s.occurrence_date k = false := by
  unfold Schedule.validate_duration at h
  split at h
  · rename_i k' heq
    split at h
    · cases h
    · rename_i hrange
      split at h
      · cases h
      · rename_i hcm
        cases h
        refine ⟨rfl, ?_⟩
        intro k hk
        rw [heq] at hk
        cases hk
        refine ⟨by omega, by omega, by simpa using hcm⟩
  · rename_i heq
    cases h
    refine ⟨rfl, ?_⟩
    intro k hk
    rw [heq] at hk
    cases hk

/-- Construction of a successful `validate_date_order`. -/
theorem date_order_ok_of {s : Schedule}
    (h : ∀ e, s.end_date = some e → ¬ e.toUsec < s.start_date.toUsec) :
    s.validate_date_order = Except.ok s := by
  unfold Schedule.validate_date_order
  split
  · rename_i e' heq
    rw [if_neg (h e' heq)]
  · rfl

/-- Construction of a successful `validate_occurrence` from the three
ordering checks. -/
theorem occurrence_ok_of {s : Schedule}
    (h1 : ¬ s.occurrence_date.toUsec < s.start_date.toUsec)
    (h2 : ¬ s.occurrence_date.toUsec < s.now.toUsec)
    (h3 : ∀ e, s.end_date = some e → ¬ e.toUsec < s.occurrence_date.toUsec) :
    s.validate_occurrence = Except.ok s.insertAtTime := by
  unfold Schedule.validate_occurrence
  rw [if_neg h1, if_neg h2]
  split
  · rename_i e' heq
    rw [if_neg (h3 e' heq)]
  · rfl

/-- A failing field stage propagates through `validate` unchanged. -/
theorem validate_fieldStage_err {c : Int} {n sd occ : DateTime} {r : ReoccurrenceType}
    {ed : Option DateTime} {at_ : Option String} {d : Option Int} {e : VErr}
    (hf : fieldStage at_ d = Except.error e) :
    validate c n sd r occ ed at_ d = Except.error e := by
  unfold validate
  rw [hf]

/-- Full inversion of a successful validation: the returned model is the
input record with the time rewrite applied, every ordering check held of
the un-rewritten occurrence date, and any present duration is in range and
does not cross midnight from the rewritten occurrence date. -/
theorem validate_ok_inv {c : Int} {n sd occ : DateTime} {r : ReoccurrenceType}
    {ed : Option DateTime} {at_ : Option String} {d : Option Int} {s : Schedule}
    (h : validate c n sd r occ ed at_ d = Except.ok s) :
    ∃ at', fieldStage at_ d = Except.ok at' ∧
      s = ⟨c, n, sd, r, applyAtTime at' occ, ed, true, at', d⟩ ∧
      ¬ occ.toUsec < sd.toUsec ∧ ¬ occ.toUsec < n.toUsec ∧
      (∀ e, ed = some e → ¬ e.toUsec < sd.toUsec ∧ ¬ e.toUsec < occ.toUsec) ∧
      ∀ k, d = some k → 1 ≤ k ∧ k ≤ 1440 ∧
        crossesMidnight (applyAtTime at' occ) k = false := by
  unfold validate at h
  split at h
  · cases h
  · rename_i at' hf
    split at h
    · cases h
    · rename_i s1 hdo
      split at h
      · cases h
      · rename_i s2 hocc
        obtain ⟨hs1, hed⟩ := date_order_ok hdo
        subst hs1
        obtain ⟨hs2, ho1, ho2, ho3⟩ := occurrence_ok hocc
        subst hs2
        obtain ⟨hss, hdur⟩ := duration_ok h
        subst hss
        refine ⟨at', hf, rfl, ho1, ho2, ?_, ?_⟩
        · intro e he
          exact ⟨hed e he, ho3 e he⟩
        · intro k hk
          exact hdur k hk

/-- When the field stage and the date-level checks pass, `validate` reduces
to the duration validator applied to the rewritten model. -/
theorem validate_run {c : Int} {n sd occ : DateTime} {r : ReoccurrenceType}
    {ed : Option DateTime} {at_ at' : Option String} {d : Option Int}
    (hf : fieldStage at_ d = Except.ok at')
    (h1 : ¬ occ.toUsec < sd.toUsec) (h2 : ¬ occ.toUsec < n.toUsec)
    (h3 : ∀ e, ed = some e → ¬ e.toUsec < sd.toUsec ∧ ¬ e.toUsec < occ.toUsec) :
    validate c n sd r occ ed at_ d =
      Schedule.validate_duration ⟨c, n, sd, r, applyAtTime at' occ, ed, true, at', d⟩ := by
  unfold validate
  rw [hf]
  dsimp only
  rw [date_order_ok_of (s := ⟨c, n, sd, r, occ, ed, true, at', d⟩)
    (fun e he => (h3 e he).1)]
  dsimp only
  rw [occurrence_ok_of (s := ⟨c, n, sd, r, occ, ed, true, at', d⟩) h1 h2
    (fun e he => (h3 e he).2)]
  rfl

/-- C1, counterexample: with every other check passing and the occurrence at
exactly midnight (time of day 00:00:00), a duration of exactly 1440 minutes
is rejected with `DurationCrossesMidnight` — refuting the claim that 1440 is
accepted when the time of day is 00:00:00. -/
theorem duration_1440_midnight_counterexample :
    dt0.todUsec = 0 ∧
    validate 0 dt0 dt0 ReoccurrenceType.daily dt0 none none (some 1440) =
      Except.error VErr.DurationCrossesMidnight :=
  ⟨rfl, by decide⟩

/-- C1 (amended): a `durationMinutes` of exactly 1440 is never accepted,
whatever `occurrenceDate`'s time of day — including 00:00:00, the case the
claim singles out as accepted — because occurrence + 1440 minutes always
lands on the next calendar day; whenever every other check passes (the same
inputs with no duration validate successfully), the reported failure is
`DurationCrossesMidnight`. -/
theorem duration_1440_always_crosses_midnight (c : Int) (n sd occ : DateTime)
    (r : ReoccurrenceType) (ed : Option DateTime) (at_ : Option String) :
    isOk (validate c n sd r occ ed at_ (some 1440)) = false ∧
    (isOk (validate c n sd r occ ed at_ none) = true →
      validate c n sd r occ ed at_ (some 1440) =
        Except.error VErr.DurationCrossesMidnight) := by
  constructor
  · cases hv : validate c n sd r occ ed at_ (some 1440) with
    | error e => rfl
    | ok s =>
      exfalso
      obtain ⟨at', _, _, _, _, _, hdur⟩ := validate_ok_inv hv
      have h14 := (hdur 1440 rfl).2.2
      rw [crossesMidnight_1440] at h14
      cases h14
  · intro hok
    cases hv : validate c n sd r occ ed at_ none with
    | error e => rw [hv] at hok; simp [isOk] at hok
    | ok s =>
      obtain ⟨at', hf, _, h1, h2, h3, _⟩ := validate_ok_inv hv
      rw [validate_run (fieldStage_some_of_none hf (by omega)) h1 h2 h3]
      unfold Schedule.validate_duration
      dsimp only
      rw [if_neg (by omega), if_pos (crossesMidnight_1440 _)]

/-- C1, witness: the amended theorem applied at a concrete input whose
duration-free validation succeeds. -/
theorem duration_1440_always_crosses_midnight_witness :
    isOk (validate 0 dt0 dt0 ReoccurrenceType.daily dt0 none none none) = true ∧
    validate 0 dt0 dt0 ReoccurrenceType.daily dt0 none none (some 1440) =
      Except.error VErr.DurationCrossesMidnight :=
  ⟨by decide,
    (duration_1440_always_crosses_midnight 0 dt0 dt0 dt0 ReoccurrenceType.daily none none).2
      (by decide)⟩

/-- C2 (confirmed): whenever validation succeeds, the three ordering checks
held of the un-rewritten `occurrenceDate` (against `startDate`, `now`, and
`endDate` when present) and the `atTime` rewrite is applied only afterwards;
consequently there is an input whose validation succeeds although the final
(rewritten) `occurrenceDate` is strictly earlier than `now`. -/
theorem ordering_checks_use_unrewritten_occurrence :
    (∀ (c : Int) (n sd occ : DateTime) (r : ReoccurrenceType) (ed : Option DateTime)
        (at_ : Option String) (d : Option Int) (s : Schedule),
        validate c n sd r occ ed at_ d = Except.ok s →
          ¬ occ.toUsec < sd.toUsec ∧ ¬ occ.toUsec < n.toUsec ∧
            ∀ e, ed = some e → ¬ e.toUsec < occ.toUsec) ∧
    ∃ s, validate 0 dtNow dt0 ReoccurrenceType.daily dtOcc none (some time0900) none =
        Except.ok s ∧ s.occurrence_date.toUsec < dtNow.toUsec := by
  constructor
  · intro c n sd occ r ed at_ d s h
    obtain ⟨at', _, _, h1, h2, h3, _⟩ := validate_ok_inv h
    exact ⟨h1, h2, fun e he => (h3 e he).2⟩
  · exact ⟨schedC2, by decide, by decide⟩

/-- C2, witness: the general part applied at the concrete succeeding
input. -/
theorem ordering_checks_use_unrewritten_occurrence_witness :
    validate 0 dtNow dt0 ReoccurrenceType.daily dtOcc none (some time0900) none =
      Except.ok schedC2 ∧ ¬ dtOcc.toUsec < dtNow.toUsec := by
  have hok : validate 0 dtNow dt0 ReoccurrenceType.daily dtOcc none (some time0900) none =
      Except.ok schedC2 := by decide
  exact ⟨hok, (ordering_checks_use_unrewritten_occurrence.1 0 dtNow dt0 dtOcc
    ReoccurrenceType.daily none (some time0900) none schedC2 hok).2.1⟩

/-- C3, counterexample: `start` on a task whose status is `Completed` moves
it to `InProgress`, so `Completed` is not terminal. -/
theorem terminal_status_counterexample :
    taskDone.status = TaskStatus.completed ∧
    (Task.start taskDone dt0).status = TaskStatus.in_progress ∧
    TaskStatus.in_progress ≠ TaskStatus.completed := by decide

/-- C3 (amended): no lifecycle operation guards on the current status: from
every starting status, including `Completed` and `Canceled`, `start` sets
`InProgress`, `complete` sets `Completed`, and `cancel` sets `Canceled`; in
particular the terminal statuses are not preserved (a `Completed` task is
moved out of `Completed` by `start` and by `cancel`, a `Canceled` one by
`start` and by `complete`). -/
theorem lifecycle_ops_ignore_terminal_status (t : Task) (now : DateTime)
    (reason : Option String) :
    (Task.start t now).status = TaskStatus.in_progress ∧
    (Task.complete t now).1.status = TaskStatus.completed ∧
    (Task.cancel t reason).status = TaskStatus.canceled := by
  refine ⟨rfl, ?_, ?_⟩
  · unfold Task.complete
    split
    · rfl
    · rfl
  · unfold Task.cancel
    cases reason with
    | some r =>
      dsimp only
      split
      · rfl
      · rfl
    | none => rfl

/-- C4 (confirmed): calling `complete` on a task whose `startTime` is unset
fails with `MissingTimestamps`, reported to the caller, and no default
runtime is substituted — the task's `runtime` field is left exactly as it
was. -/
theorem complete_without_start_missing_timestamps (t : Task) (now : DateTime)
    (h : t.start_time = none) :
    (Task.complete t now).2 = some VErr.MissingTimestamps ∧
    (Task.complete t now).1.runtime = t.runtime := by
  have hcr : Task.calculate_runtime (Task.markCompleted t now) =
      Except.error VErr.MissingTimestamps := by
    unfold Task.calculate_runtime Task.markCompleted
    dsimp only
    rw [h]
  unfold Task.complete
  rw [hcr]
  exact ⟨rfl, rfl⟩

/-- C4, witness: the theorem applied to a freshly created task. -/
theorem complete_without_start_missing_timestamps_witness :
    (Task.complete task0 dt0).2 = some VErr.MissingTimestamps ∧
    (Task.complete task0 dt0).1.runtime = task0.runtime :=
  complete_without_start_missing_timestamps task0 dt0 rfl

/-- C5, counterexample: with `durationMinutes = 2000` (outside `[1, 1440]`)
but `endDate < startDate`, validation fails with `DateOrderViolation`, not
`DurationOutOfRange` — refuting the claim's `whatever the other input
fields are`. -/
theorem duration_out_of_range_counterexample :
    validate 0 dt0 dtDay1 ReoccurrenceType.daily dtDay1 (some dt0) none (some 2000) =
      Except.error VErr.DateOrderViolation := by decide

/-- C5 (amended): validation never succeeds when `durationMinutes` lies
outside `[1, 1440]`; and whenever every other check passes (the same inputs
with no duration validate successfully), the reported failure is
`DurationOutOfRange`.  When another field already fails an earlier check,
that earlier failure is reported instead. -/
theorem duration_out_of_range_never_validates (c : Int) (n sd occ : DateTime)
    (r : ReoccurrenceType) (ed : Option DateTime) (at_ : Option String) (d : Int)
    (hd : d < 1 ∨ 1440 < d) :
    isOk (validate c n sd r occ ed at_ (some d)) = false ∧
    (isOk (validate c n sd r occ ed at_ none) = true →
      validate c n sd r occ ed at_ (some d) = Except.error VErr.DurationOutOfRange) := by
  constructor
  · cases hv : validate c n sd r occ ed at_ (some d) with
    | error e => rfl
    | ok s =>
      exfalso
      obtain ⟨at', _, _, _, _, _, hdur⟩ := validate_ok_inv hv
      obtain ⟨ha, hb, _⟩ := hdur d rfl
      omega
  · intro hok
    cases hv : validate c n sd r occ ed at_ none with
    | error e => rw [hv] at hok; simp [isOk] at hok
    | ok s =>
      obtain ⟨at', hf, _, h1, h2, h3, _⟩ := validate_ok_inv hv
      rcases hd with hlt | hgt
      · exact validate_fieldStage_err (fieldStage_some_lt_one hf hlt)
      · rw [validate_run (fieldStage_some_of_none hf (by omega)) h1 h2 h3]
        unfold Schedule.validate_duration
        dsimp only
        rw [if_pos (by omega)]

/-- C5, witness: the amended theorem at duration 1441 with every other
check passing. -/
theorem duration_out_of_range_never_validates_witness :
    (1441 < 1 ∨ 1440 < (1441 : Int)) ∧
    validate 0 dt0 dt0 ReoccurrenceType.daily dt0 none none (some 1441) =
      Except.error VErr.DurationOutOfRange :=
  ⟨Or.inr (by decide),
    (duration_out_of_range_never_validates 0 dt0 dt0 dt0 ReoccurrenceType.daily none none
      1441 (Or.inr (by decide))).2 (by decide)⟩

/-- C6 (confirmed): validation rejects an `atTime` string with
`MalformedTimeOfDay` exactly when its whitespace-stripped form fails the
`([0-1][0-9]|2[0-3]):([0-5][0-9])` pattern; `24:00`, `9:30` (unpadded) and
`12:60` all fail that way, while `09:30` is accepted and the resulting
`occurrenceDate` carries time of day 09:30:00. -/
theorem at_time_accepted_iff_pattern :
    (∀ (c : Int) (n sd occ : DateTime) (r : ReoccurrenceType) (ed : Option DateTime)
        (d : Option Int) (a : String), isTimePattern (pyStrip a) = false →
        validate c n sd r occ ed (some a) d = Except.error VErr.MalformedTimeOfDay) ∧
    (∀ (c : Int) (n sd occ : DateTime) (r : ReoccurrenceType) (ed : Option DateTime)
        (d : Option Int) (a : String), isTimePattern (pyStrip a) = true →
        validate c n sd r occ ed (some a) d ≠ Except.error VErr.MalformedTimeOfDay) ∧
    validate 0 dt0 dt0 ReoccurrenceType.daily dt0 none (some time2400) none =
      Except.error VErr.MalformedTimeOfDay ∧
    validate 0 dt0 dt0 ReoccurrenceType.daily dt0 none (some time930) none =
      Except.error VErr.MalformedTimeOfDay ∧
    validate 0 dt0 dt0 ReoccurrenceType.daily dt0 none (some time1260) none =
      Except.error VErr.MalformedTimeOfDay ∧
    ∃ s, validate 0 dt0 dt0 ReoccurrenceType.daily dt0 none (some time0930) none =
        Except.ok s ∧ s.occurrence_date.hour = 9 ∧ s.occurrence_date.minute = 30 ∧
        s.occurrence_date.second = 0 ∧ s.occurrence_date.usec = 0 := by
  refine ⟨?_, ?_, by decide, by decide, by decide, ?_⟩
  · intro c n sd occ r ed d a hp
    have hfe : fieldStage (some a) d = Except.error VErr.MalformedTimeOfDay := by
      cases d with
      | none => rw [fieldStage_some_none, ensure_err_of_not hp]
      | some k => rw [fieldStage_some_some, ensure_err_of_not hp]
    exact validate_fieldStage_err hfe
  · intro c n sd occ r ed d a hp hcontra
    unfold validate at hcontra
    split at hcontra
    · rename_i e hf
      cases hcontra
      exact absurd (fieldStage_pattern_err hp hf) (by decide)
    · rename_i at' hf
      split at hcontra
      · rename_i e hdo
        cases hcontra
        exact absurd (date_order_err hdo) (by decide)
      · rename_i s1 hdo
        split at hcontra
        · rename_i e hocc
          cases hcontra
          rcases occurrence_err hocc with h | h | h
          · exact absurd h (by decide)
          · exact absurd h (by decide)
          · exact absurd h (by decide)
        · rename_i s2 hocc
          rcases duration_err hcontra with h | h
          · exact absurd h (by decide)
          · exact absurd h (by decide)
  · exact ⟨⟨0, dt0, dt0, ReoccurrenceType.daily, ⟨0, 9, 30, 0, 0⟩, none, true,
      some time0930, none⟩, by decide, rfl, rfl, rfl, rfl⟩

/-- C6, witness: the rejection direction applied to a concrete non-matching
string. -/
theorem at_time_accepted_iff_pattern_witness :
    validate 0 dt0 dt0 ReoccurrenceType.daily dt0 none (some timeJunk) none =
      Except.error VErr.MalformedTimeOfDay :=
  at_time_accepted_iff_pattern.1 0 dt0 dt0 dt0 ReoccurrenceType.daily none none timeJunk
    (by decide)

/-- C7, counterexample: with `endDate < startDate` but a malformed `atTime`,
validation fails with `MalformedTimeOfDay`, not `DateOrderViolation` —
refuting the claim's `regardless of every other input field`. -/
theorem end_before_start_counterexample :
    dt0.toUsec < dtDay1.toUsec ∧
    validate 0 dt0 dtDay1 ReoccurrenceType.daily dtDay1 (some dt0) (some timeJunk) none =
      Except.error VErr.MalformedTimeOfDay ∧
    VErr.MalformedTimeOfDay ≠ VErr.DateOrderViolation := by decide

/-- C7 (amended): whenever `endDate` is present with `endDate < startDate`,
and `atTime` (if present) is well-formed and `durationMinutes` (if present)
is at least 1, validation fails with `DateOrderViolation` regardless of the
remaining fields; and when `endDate` equals `startDate` the check passes —
`DateOrderViolation` is never reported. -/
theorem end_before_start_date_order (c : Int) (n sd occ e : DateTime)
    (r : ReoccurrenceType) (at_ : Option String) (d : Option Int)
    (he : e.toUsec < sd.toUsec)
    (hat : ∀ a, at_ = some a → isTimePattern (pyStrip a) = true)
    (hd : ∀ k, d = some k → 1 ≤ k) :
    validate c n sd r occ (some e) at_ d = Except.error VErr.DateOrderViolation ∧
    ∀ (c' : Int) (n' sd' occ' : DateTime) (r' : ReoccurrenceType)
      (at2 : Option String) (d' : Option Int),
      validate c' n' sd' r' occ' (some sd') at2 d' ≠
        Except.error VErr.DateOrderViolation := by
  constructor
  · have hf := fieldStage_ok_of hat hd
    unfold validate
    rw [hf]
    dsimp only
    unfold Schedule.validate_date_order
    dsimp only
    rw [if_pos he]
  · intro c' n' sd' occ' r' at2 d' hcontra
    unfold validate at hcontra
    split at hcontra
    · rename_i e2 hf2
      cases hcontra
      rcases fieldStage_err hf2 with h | h
      · cases h
      · cases h
    · rename_i at2' hf2
      split at hcontra
      · rename_i e2 hdo
        cases hcontra
        unfold Schedule.validate_date_order at hdo
        dsimp only at hdo
        rw [if_neg (by omega)] at hdo
        cases hdo
      · rename_i s1 hdo
        split at hcontra
        · rename_i e2 hocc
          cases hcontra
          rcases occurrence_err hocc with h | h | h
          · cases h
          · cases h
          · cases h
        · rename_i s2 hocc
          rcases duration_err hcontra with h | h
          · cases h
          · cases h

/-- C7, witness: the amended theorem at a concrete input with
`endDate < startDate` and no optional fields. -/
theorem end_before_start_date_order_witness :
    validate 0 dt0 dtDay1 ReoccurrenceType.daily dtDay1 (some dt0) none none =
      Except.error VErr.DateOrderViolation :=
  (end_before_start_date_order 0 dt0 dtDay1 dtDay1 dt0 ReoccurrenceType.daily none none
    (by decide) (fun a ha => by cases ha) (fun k hk => by cases hk)).1

/-- C8 (confirmed): after `start` then `complete`, the call succeeds and
`runtime` equals `completedTime - startTime` exactly; in particular a clock
advance of exactly 5 minutes (300000000 microseconds) yields a runtime of
exactly 5 minutes. -/
theorem runtime_equals_completed_minus_start (t : Task) (n1 n2 : DateTime) :
    (Task.complete (Task.start t n1) n2).2 = none ∧
    (Task.complete (Task.start t n1) n2).1.runtime = some (n2.toUsec - n1.toUsec) ∧
    (n2.toUsec - n1.toUsec = 300000000 →
      (Task.complete (Task.start t n1) n2).1.runtime = some 300000000) := by
  have hcr : Task.calculate_runtime (Task.markCompleted (Task.start t n1) n2) =
      Except.ok (n2.toUsec - n1.toUsec) := rfl
  unfold Task.complete
  rw [hcr]
  refine ⟨rfl, rfl, ?_⟩
  intro h
  rw [h]

/-- C8, witness: the theorem with the clock advancing exactly 5 minutes. -/
theorem runtime_equals_completed_minus_start_witness :
    dt5.toUsec - dt0.toUsec = 300000000 ∧
    (Task.complete (Task.start task0 dt0) dt5).1.runtime = some 300000000 :=
  ⟨by decide, (runtime_equals_completed_minus_start task0 dt0 dt5).2.2 (by decide)⟩

/-- C9, counterexample: `cancel` with a supplied empty-string reason leaves
`cancellationReason` unset — refuting `sets cancellationReason exactly when
a reason is supplied` (Python truthiness treats the empty string like an
absent reason). -/
theorem cancel_empty_reason_counterexample :
    task0.cancellation_reason = none ∧
    (Task.cancel task0 (some emptyReason)).cancellation_reason = none := by decide

/-- C9 (amended): `cancel` sets status to `Canceled` from every starting
state and leaves `startTime`, `completedTime` and `runtime` unchanged (it
never computes runtime); it sets `cancellationReason` exactly when the
supplied reason is a non-empty string, leaving it unchanged otherwise. -/
theorem cancel_sets_canceled_frame (t : Task) (reason : Option String) :
    (Task.cancel t reason).status = TaskStatus.canceled ∧
    (Task.cancel t reason).start_time = t.start_time ∧
    (Task.cancel t reason).completed_time = t.completed_time ∧
    (Task.cancel t reason).runtime = t.runtime ∧
    (Task.cancel t reason).cancellation_reason =
      (match reason with
        | some r => if r.isEmpty then t.cancellation_reason else some r
        | none => t.cancellation_reason) := by
  cases reason with
  | none => exact ⟨rfl, rfl, rfl, rfl, rfl⟩
  | some r =>
    cases hr : r.isEmpty with
    | true => simp [Task.cancel, hr]
    | false => simp [Task.cancel, hr]

/-- C10 (confirmed): a failing `complete` (no prior `start`) raises
`MissingTimestamps` only after the task has already been mutated: on the
failed call the status has been set to `Completed` and `completedTime` to
`now`, while `runtime` remains unset. -/
theorem complete_failure_mutates_task (t : Task) (now : DateTime)
    (h : t.start_time = none) (h2 : t.runtime = none) :
    (Task.complete t now).2 = some VErr.MissingTimestamps ∧
    (Task.complete t now).1.status = TaskStatus.completed ∧
    (Task.complete t now).1.completed_time = some now ∧
    (Task.complete t now).1.runtime = none := by
  have hcr : Task.calculate_runtime (Task.markCompleted t now) =
      Except.error VErr.MissingTimestamps := by
    unfold Task.calculate_runtime Task.markCompleted
    dsimp only
    rw [h]
  unfold Task.complete
  rw [hcr]
  exact ⟨rfl, rfl, rfl, h2⟩

/-- C10, witness: the theorem applied to a freshly created task. -/
theorem complete_failure_mutates_task_witness :
    (Task.complete task0 dt0).2 = some VErr.MissingTimestamps ∧
    (Task.complete task0 dt0).1.status = TaskStatus.completed ∧
    (Task.complete task0 dt0).1.completed_time = some dt0 ∧
    (Task.complete task0 dt0).1.runtime = none :=
  complete_failure_mutates_task task0 dt0 rfl rfl

end Metamorphio
